import Mathlib

/-!
Verification of the fleet-console client engine (frontend/src/lib.ts plus the
two console UIs that drive it).  The definitions below are a shallow embedding
of the store logic: Zustand record objects become functions `String → Option α`
updated pointwise, JS numbers that the embedded logic only ever compares for
equality (coordinates) become `Int`, and fallible paths (the WebSocket
dispatcher, which can throw out of `JSON.parse`) return `Except`.
-/

namespace Argus

/-- Pointwise update of a record object modelled as a lookup function. -/
def setKey {α : Type} (m : String → Option α) (k : String) (v : Option α) :
    String → Option α :=
  fun s => if s = k then v else m s

/-- JS `list.slice(-n)`: the last `min n (length)` elements, in order. -/
def sliceLast {α : Type} (n : Nat) (l : List α) : List α :=
  l.drop (l.length - n)

-- ---------------------------------------------------------------------------
-- Data model (lib.ts type declarations)
-- ---------------------------------------------------------------------------

/-- lib.ts `AutonomyTier`. -/
inductive AutonomyTier
  | manual | assisted | supervised | autonomous
  deriving DecidableEq, Repr

/-- lib.ts `RobotStatus`. -/
inductive RobotStatus
  | idle | active | returning | error | offline
  deriving DecidableEq, Repr

/-- lib.ts `RobotType`. -/
inductive RobotType
  | drone | ground | underwater
  deriving DecidableEq, Repr

/-- lib.ts `RobotPosition`.  Coordinates are JS numbers; the embedded store
logic only compares them for equality, so `Int` is an adequate carrier. -/
structure RobotPosition where
  latitude : Int
  longitude : Int
  altitude : Int
  heading : Int
  deriving DecidableEq, Repr

/-- lib.ts `RobotHealth`. -/
structure RobotHealth where
  batteryPercent : Int
  signalStrength : Int
  deriving DecidableEq, Repr

/-- lib.ts `RobotState`.  `position` is optional because inbound payloads are
cast unchecked and `updateRobot` guards with `robot.position?.longitude`.
The opaque `metadata` bag is never read by any embedded logic and is omitted. -/
structure RobotState where
  id : String
  name : String
  robotType : RobotType
  status : RobotStatus
  position : Option RobotPosition
  speed : Int
  health : RobotHealth
  lastSeen : Int
  autonomyTier : AutonomyTier
  lastCommandSource : String
  lastCommandAt : Int
  deriving DecidableEq, Repr

/-- lib.ts `CommandStatus`. -/
inductive CommandStatus
  | pending | sent | acknowledged | completed | failed
  deriving DecidableEq, Repr

/-- lib.ts `CommandSource`. -/
inductive CommandSource
  | operator | ai
  deriving DecidableEq, Repr

/-- lib.ts `Command`.  `commandType` is kept as a string: the senders pass
strings (`sendCommand(robotId, commandType: string, …)`), including values
outside the nominal `CommandType` union such as `"follow_waypoints"`.
The `parameters` bag is carried by outbound messages (see `CommandParams`);
for inbound command records no embedded logic reads it, so it is omitted. -/
structure Command where
  id : String
  robotId : String
  commandType : String
  source : CommandSource
  status : CommandStatus
  createdAt : Int
  updatedAt : Int
  deriving DecidableEq, Repr

/-- lib.ts `WaypointStatus`. -/
inductive WaypointStatus
  | pending | active | completed | skipped
  deriving DecidableEq, Repr

/-- lib.ts `Waypoint` (the per-robot mission waypoint; also the element shape
built by the alternative console's `sendWaypoints`).  The empty `parameters`
bag is omitted. -/
structure Waypoint where
  id : String
  sequence : Nat
  latitude : Int
  longitude : Int
  altitude : Int
  action : String
  status : WaypointStatus
  deriving DecidableEq, Repr

/-- lib.ts `MissionStatus`. -/
inductive MissionStatus
  | draft | active | paused | completed | aborted
  deriving DecidableEq, Repr

/-- lib.ts `Mission`.  `waypoints` is a record keyed by robot id. -/
structure Mission where
  id : String
  name : String
  status : MissionStatus
  assignedRobots : List String
  waypoints : String → Option (List Waypoint)
  createdAt : Int
  updatedAt : Int

/-- lib.ts `SuggestionSeverity`. -/
inductive SuggestionSeverity
  | info | warning | critical
  deriving DecidableEq, Repr

/-- lib.ts `SuggestionStatus`. -/
inductive SuggestionStatus
  | pending | approved | rejected | expired
  deriving DecidableEq, Repr

/-- lib.ts `SuggestionSource`. -/
inductive SuggestionSource
  | heuristic | ai
  deriving DecidableEq, Repr

/-- lib.ts `ProposedAction`.  The optional parameter bag is omitted (never
read by the embedded logic). -/
structure ProposedAction where
  commandType : String
  robotId : String
  deriving DecidableEq, Repr

/-- lib.ts `Suggestion`.  `confidence` is only displayed, kept as `Int`
percent-agnostic scalar. -/
structure Suggestion where
  id : String
  robotId : String
  title : String
  description : String
  reasoning : String
  severity : SuggestionSeverity
  proposedAction : Option ProposedAction
  confidence : Int
  status : SuggestionStatus
  source : SuggestionSource
  createdAt : Int
  expiresAt : Int
  deriving DecidableEq, Repr

/-- lib.ts `AutonomyChangeEntry`. -/
structure AutonomyChangeEntry where
  id : String
  robotId : String
  oldTier : AutonomyTier
  newTier : AutonomyTier
  changedBy : String
  timestamp : Int
  deriving DecidableEq, Repr

/-- lib.ts `CountdownSuggestion`. -/
structure CountdownSuggestion where
  suggestionId : String
  robotId : String
  commandType : String
  autoExecuteAt : Int
  deriving DecidableEq, Repr

-- ---------------------------------------------------------------------------
-- useRobotStore
-- ---------------------------------------------------------------------------

/-- lib.ts `MAX_TRAIL_POINTS`. -/
def MAX_TRAIL_POINTS : Nat := 60

/-- The robot store slice: the `robots` record and the `trails` record
(per-robot `[lng, lat]` sample lists). -/
structure RobotStore where
  robots : String → Option RobotState
  trails : String → Option (List (Int × Int))

/-- `useRobotStore.setRobots`: `set({ robots })` replaces the whole robots
record and touches nothing else. -/
def RobotStore.setRobots (st : RobotStore) (robots : String → Option RobotState) :
    RobotStore :=
  { st with robots := robots }

/-- The trail computation inside `useRobotStore.updateRobot`: starting from
`prev`, append `[lng, lat]` after evicting down to `MAX_TRAIL_POINTS - 1`
entries, unless the last recorded sample is already `[lng, lat]`
(the source condition `!last || last[0] !== lng || last[1] !== lat`,
i.e. append exactly when `prev.getLast? ≠ some (lng, lat)`). -/
def trailStep (prev : List (Int × Int)) (lng lat : Int) : List (Int × Int) :=
  if prev.getLast? = some (lng, lat) then prev
  else sliceLast (MAX_TRAIL_POINTS - 1) prev ++ [(lng, lat)]

/-- `useRobotStore.updateRobot`: replace the robot record at `id` wholesale
and update its trail; when the payload has no position (`lng`/`lat`
undefined) the trail value is left as `prev`. -/
def RobotStore.updateRobot (st : RobotStore) (id : String) (robot : RobotState) :
    RobotStore :=
  let prev := (st.trails id).getD []
  let trail :=
    match robot.position with
    | none => prev
    | some pos => trailStep prev pos.longitude pos.latitude
  { robots := setKey st.robots id (some robot),
    trails := setKey st.trails id (some trail) }

-- ---------------------------------------------------------------------------
-- useMissionStore
-- ---------------------------------------------------------------------------

/-- The mission store slice. -/
structure MissionStore where
  missions : String → Option Mission
  activeMissionId : Option String

/-- `useMissionStore.setMissions`: wholesale replacement of the record. -/
def MissionStore.setMissions (st : MissionStore) (missions : String → Option Mission) :
    MissionStore :=
  { st with missions := missions }

/-- `useMissionStore.updateMission`: upsert by id; an `active` mission becomes
the focused mission. -/
def MissionStore.updateMission (st : MissionStore) (mission : Mission) :
    MissionStore :=
  { missions := setKey st.missions mission.id (some mission),
    activeMissionId :=
      if mission.status = MissionStatus.active then some mission.id
      else st.activeMissionId }

-- ---------------------------------------------------------------------------
-- useCommandStore
-- ---------------------------------------------------------------------------

/-- The command store slice (the `sendFn` field is modelled at the call sites
as a `Bool` saying whether a send path is installed, see `sendCommandEmits`). -/
structure CommandStore where
  commands : String → Option Command
  robotCommands : String → List String

/-- `useCommandStore.addCommand`: insert the command and append its id to the
owning robot's index. -/
def CommandStore.addCommand (st : CommandStore) (cmd : Command) : CommandStore :=
  { commands := setKey st.commands cmd.id (some cmd),
    robotCommands := fun r =>
      if r = cmd.robotId then st.robotCommands r ++ [cmd.id]
      else st.robotCommands r }

/-- A `Partial<Command>` as accepted by `updateCommand`: every field optional. -/
structure CommandPatch where
  id : Option String := none
  robotId : Option String := none
  commandType : Option String := none
  source : Option CommandSource := none
  status : Option CommandStatus := none
  createdAt : Option Int := none
  updatedAt : Option Int := none
  deriving DecidableEq, Repr

/-- JS spread `{ ...existing, ...updates }` for a command patch. -/
def mergeCommand (existing : Command) (updates : CommandPatch) : Command :=
  { id := updates.id.getD existing.id,
    robotId := updates.robotId.getD existing.robotId,
    commandType := updates.commandType.getD existing.commandType,
    source := updates.source.getD existing.source,
    status := updates.status.getD existing.status,
    createdAt := updates.createdAt.getD existing.createdAt,
    updatedAt := updates.updatedAt.getD existing.updatedAt }

/-- The patch carrying every field of a full `Command` (the WebSocket
`command.status` handler passes the entire inbound record to
`updateCommand`). -/
def fullPatch (cmd : Command) : CommandPatch :=
  { id := some cmd.id,
    robotId := some cmd.robotId,
    commandType := some cmd.commandType,
    source := some cmd.source,
    status := some cmd.status,
    createdAt := some cmd.createdAt,
    updatedAt := some cmd.updatedAt }

/-- `useCommandStore.updateCommand`: no-op when the id is unknown, otherwise
spread-merge the updates into the existing record.  The per-robot index is
not touched. -/
def CommandStore.updateCommand (st : CommandStore) (id : String)
    (updates : CommandPatch) : CommandStore :=
  match st.commands id with
  | none => st
  | some existing =>
      { st with commands := setKey st.commands id (some (mergeCommand existing updates)) }

-- ---------------------------------------------------------------------------
-- useAIStore (suggestion slice; the REST calls appear as operations below)
-- ---------------------------------------------------------------------------

/-- The AI store slice that the claims concern. -/
structure AIStore where
  suggestions : String → Option Suggestion

/-- `useAIStore.addSuggestion`. -/
def AIStore.addSuggestion (st : AIStore) (s : Suggestion) : AIStore :=
  { suggestions := setKey st.suggestions s.id (some s) }

/-- `useAIStore.updateSuggestion`. -/
def AIStore.updateSuggestion (st : AIStore) (id : String) (s : Suggestion) : AIStore :=
  { suggestions := setKey st.suggestions id (some s) }

/-- `useAIStore.removeSuggestion`: delete the key, nothing else. -/
def AIStore.removeSuggestion (st : AIStore) (id : String) : AIStore :=
  { suggestions := setKey st.suggestions id none }

-- ---------------------------------------------------------------------------
-- useAutonomyStore
-- ---------------------------------------------------------------------------

/-- The autonomy store slice. -/
structure AutonomyStore where
  fleetDefaultTier : AutonomyTier
  countdowns : String → Option CountdownSuggestion
  changeLog : List AutonomyChangeEntry

/-- `useAutonomyStore.setFleetDefaultTier`. -/
def AutonomyStore.setFleetDefaultTier (st : AutonomyStore) (tier : AutonomyTier) :
    AutonomyStore :=
  { st with fleetDefaultTier := tier }

/-- `useAutonomyStore.addCountdown`: unconditional upsert keyed by
`suggestionId`; nothing is checked against the suggestion or robot stores. -/
def AutonomyStore.addCountdown (st : AutonomyStore) (c : CountdownSuggestion) :
    AutonomyStore :=
  { st with countdowns := setKey st.countdowns c.suggestionId (some c) }

/-- `useAutonomyStore.removeCountdown`. -/
def AutonomyStore.removeCountdown (st : AutonomyStore) (suggestionId : String) :
    AutonomyStore :=
  { st with countdowns := setKey st.countdowns suggestionId none }

/-- `useAutonomyStore.addChangeLogEntry`: `[...changeLog.slice(-99), entry]`. -/
def AutonomyStore.addChangeLogEntry (st : AutonomyStore) (e : AutonomyChangeEntry) :
    AutonomyStore :=
  { st with changeLog := sliceLast 99 st.changeLog ++ [e] }

-- ---------------------------------------------------------------------------
-- useUIStore (the fields the command builder uses)
-- ---------------------------------------------------------------------------

/-- lib.ts `CommandMode`. -/
inductive CommandMode
  | noMode | goto | set_home | set_waypoints | circle_area
  deriving DecidableEq, Repr

/-- The UI store slice driving the map-interaction command builder.
Waypoints are `{lat, lng}` pairs, stored here as `(lat, lng)`. -/
structure UIStore where
  selectedRobotId : Option String
  commandMode : CommandMode
  pendingWaypoints : List (Int × Int)
  circleCenter : Option (Int × Int)
  circleRadius : Int

/-- `useUIStore.addWaypoint`. -/
def UIStore.addWaypoint (st : UIStore) (lat lng : Int) : UIStore :=
  { st with pendingWaypoints := st.pendingWaypoints ++ [(lat, lng)] }

/-- `useUIStore.undoWaypoint`: `pendingWaypoints.slice(0, -1)`. -/
def UIStore.undoWaypoint (st : UIStore) : UIStore :=
  { st with pendingWaypoints := st.pendingWaypoints.dropLast }

/-- `useUIStore.clearWaypoints`. -/
def UIStore.clearWaypoints (st : UIStore) : UIStore :=
  { st with pendingWaypoints := [] }

/-- `useUIStore.setCircleCenter`. -/
def UIStore.setCircleCenter (st : UIStore) (center : Option (Int × Int)) : UIStore :=
  { st with circleCenter := center }

/-- `useUIStore.setCommandMode`: entering mode `noMode` also clears the
waypoint draft and circle center. -/
def UIStore.setCommandMode (st : UIStore) (mode : CommandMode) : UIStore :=
  if mode = CommandMode.noMode then
    { st with commandMode := mode, pendingWaypoints := [], circleCenter := none }
  else
    { st with commandMode := mode }

/-- `useUIStore.selectRobot`: selecting resets the mode and drafts. -/
def UIStore.selectRobot (st : UIStore) (id : Option String) : UIStore :=
  { st with
    selectedRobotId := id, commandMode := CommandMode.noMode,
    pendingWaypoints := [], circleCenter := none }

-- ---------------------------------------------------------------------------
-- Outbound sends
-- ---------------------------------------------------------------------------

/-- A `{latitude, longitude}` object as built by the main console's
`WaypointToolbar.handleSend`. -/
structure GeoPoint where
  latitude : Int
  longitude : Int
  deriving DecidableEq, Repr

/-- The parameter bags passed to `sendCommand` by the embedded call sites. -/
inductive CommandParams
  | empty
  | point (latitude longitude : Int)
  | circleArea (latitude longitude radius : Int)
  | simpleWaypoints (waypoints : List GeoPoint)
  | fullWaypoints (waypoints : List Waypoint)
  deriving DecidableEq, Repr

/-- One outbound `command.send` payload `{robotId, commandType, parameters}`. -/
structure OutboundCommand where
  robotId : String
  commandType : String
  parameters : CommandParams
  deriving DecidableEq, Repr

/-- `useCommandStore.sendCommand`: one `sendFn("command.send", …)` call when a
send path is installed (socket open), nothing otherwise.  Returns the list of
emitted payloads. -/
def sendCommandEmits (sendFnInstalled : Bool) (robotId commandType : String)
    (parameters : CommandParams) : List OutboundCommand :=
  if sendFnInstalled then [{ robotId := robotId, commandType := commandType,
                             parameters := parameters }]
  else []

-- ---------------------------------------------------------------------------
-- WebSocket message dispatch (useWebSocket, ws.onmessage)
-- ---------------------------------------------------------------------------

/-- `StateSyncPayload`: the robots record, and optionally a missions record. -/
structure StateSyncPayload where
  robots : String → Option RobotState
  missions : Option (String → Option Mission)

/-- One inbound WebSocket message event as seen by `ws.onmessage`.
`invalidJson` stands for any `event.data` that `JSON.parse` rejects;
`robotUpdatedNullPayload` for a `robot.updated` envelope whose payload is
`null` (reading `.id` from it throws a TypeError).  The remaining
constructors carry payloads of the shape their case casts to. -/
inductive InboundEvent
  | invalidJson
  | robotUpdatedNullPayload
  | stateSync (p : StateSyncPayload)
  | robotUpdated (r : RobotState)
  | commandStatus (c : Command)
  | missionUpdated (m : Mission)
  | aiSuggestion (s : Suggestion)
  | autonomyChanged (e : AutonomyChangeEntry)
  | autonomyCountdown (c : CountdownSuggestion)
  | unknownType (t : String)

/-- Exceptions the `ws.onmessage` body can raise: there is no try/catch in it,
so `JSON.parse` failures and property reads on a null payload propagate. -/
inductive DispatchError
  | jsonSyntaxError
  | typeError
  deriving DecidableEq, Repr

/-- All store slices the message dispatcher and the UI operations touch. -/
structure ClientState where
  robotStore : RobotStore
  missionStore : MissionStore
  commandStore : CommandStore
  aiStore : AIStore
  autonomyStore : AutonomyStore

/-- `ws.onmessage`: parse the envelope, then dispatch on `msg.type`.
Faithful to the source: `JSON.parse(event.data)` is the first statement and
is not wrapped in a try/catch, so unparseable data throws before any store is
touched; each case applies exactly the store calls of the corresponding
`switch` branch; unknown types fall through the `switch` unchanged. -/
def dispatchMessage (st : ClientState) (ev : InboundEvent) :
    Except DispatchError ClientState :=
  match ev with
  | InboundEvent.invalidJson => Except.error DispatchError.jsonSyntaxError
  | InboundEvent.robotUpdatedNullPayload => Except.error DispatchError.typeError
  | InboundEvent.stateSync p =>
      let rs := st.robotStore.setRobots p.robots
      let ms :=
        match p.missions with
        | some m => st.missionStore.setMissions m
        | none => st.missionStore
      Except.ok { st with robotStore := rs, missionStore := ms }
  | InboundEvent.robotUpdated r =>
      Except.ok { st with robotStore := st.robotStore.updateRobot r.id r }
  | InboundEvent.commandStatus c =>
      let cs :=
        match st.commandStore.commands c.id with
        | some _ => st.commandStore.updateCommand c.id (fullPatch c)
        | none => st.commandStore.addCommand c
      Except.ok { st with commandStore := cs }
  | InboundEvent.missionUpdated m =>
      Except.ok { st with missionStore := st.missionStore.updateMission m }
  | InboundEvent.aiSuggestion s =>
      let ai :=
        match st.aiStore.suggestions s.id with
        | some _ => st.aiStore.updateSuggestion s.id s
        | none => st.aiStore.addSuggestion s
      Except.ok { st with aiStore := ai }
  | InboundEvent.autonomyChanged e =>
      let au := st.autonomyStore.addChangeLogEntry e
      if e.robotId = "__fleet__" then
        Except.ok { st with autonomyStore := au.setFleetDefaultTier e.newTier }
      else
        match st.robotStore.robots e.robotId with
        | some existing =>
            Except.ok { st with
              autonomyStore := au,
              robotStore := st.robotStore.updateRobot e.robotId
                { existing with autonomyTier := e.newTier } }
        | none => Except.ok { st with autonomyStore := au }
  | InboundEvent.autonomyCountdown c =>
      Except.ok { st with autonomyStore := st.autonomyStore.addCountdown c }
  | InboundEvent.unknownType _ => Except.ok st

-- ---------------------------------------------------------------------------
-- Store operations beyond message dispatch
-- ---------------------------------------------------------------------------

/-- Outcome of a single `fetch` call: a resolved response (with `resp.ok`
either true or false) or a rejection (network error, which `await` re-raises
into the surrounding try/catch). -/
inductive FetchOutcome
  | okResponse
  | errorResponse
  | networkError
  deriving DecidableEq, Repr

/-- The operations that mutate the stores: message arrival plus the
user/UI-driven store actions the claims mention.  REST-backed actions carry
their `FetchOutcome` and, where the handler writes the response body into the
store, the record the collaborator returned. -/
inductive Operation
  | inbound (ev : InboundEvent)
  | removeSuggestionOp (id : String)
  | approveSuggestionOp (id : String) (outcome : FetchOutcome) (returned : Suggestion)
  | rejectSuggestionOp (id : String) (outcome : FetchOutcome) (returned : Suggestion)
  | overrideOp (id : String) (outcome : FetchOutcome) (returned : Suggestion)
  | setRobotTierOp (id : String) (tier : AutonomyTier) (outcome : FetchOutcome)
  | setFleetDefaultOp (tier : AutonomyTier) (outcome : FetchOutcome)

/-- `useAIStore.rejectSuggestion`: on a 2xx response the suggestions record at
`id` is overwritten with the body the collaborator returned; otherwise (non-2xx
or network error) nothing changes locally. -/
def rejectSuggestionApply (st : AIStore) (id : String) (outcome : FetchOutcome)
    (returned : Suggestion) : AIStore :=
  match outcome with
  | FetchOutcome.okResponse => { suggestions := setKey st.suggestions id (some returned) }
  | _ => st

/-- `useAIStore.approveSuggestion`: same local shape as rejection. -/
def approveSuggestionApply (st : AIStore) (id : String) (outcome : FetchOutcome)
    (returned : Suggestion) : AIStore :=
  rejectSuggestionApply st id outcome returned

/-- `useAutonomyStore.setRobotTier`: optimistic `updateRobot` with the new
tier, then `fetch`; only a thrown fetch (network error) reaches the catch
block, which restores the captured pre-call robot record.  The response's
status is never inspected. -/
def setRobotTierApply (st : ClientState) (robotId : String) (tier : AutonomyTier)
    (outcome : FetchOutcome) : ClientState :=
  match st.robotStore.robots robotId with
  | none => st
  | some robot =>
      let optimistic :=
        { st with robotStore :=
            st.robotStore.updateRobot robotId { robot with autonomyTier := tier } }
      match outcome with
      | FetchOutcome.networkError =>
          { optimistic with robotStore :=
              optimistic.robotStore.updateRobot robotId robot }
      | _ => optimistic

/-- `useAutonomyStore.setFleetDefault`: the fleet default changes only on
`resp.ok` (and the call has no catch, so a network error propagates to the
caller — locally the store is unchanged either way except on 2xx). -/
def setFleetDefaultApply (st : AutonomyStore) (tier : AutonomyTier)
    (outcome : FetchOutcome) : AutonomyStore :=
  match outcome with
  | FetchOutcome.okResponse => st.setFleetDefaultTier tier
  | _ => st

/-- `CountdownTimer.handleOverride` (App.tsx): `reject(suggestionId)` then
`removeCountdown(suggestionId)`. -/
def overrideApply (st : ClientState) (id : String) (outcome : FetchOutcome)
    (returned : Suggestion) : ClientState :=
  { st with
    aiStore := rejectSuggestionApply st.aiStore id outcome returned,
    autonomyStore := st.autonomyStore.removeCountdown id }

/-- Apply one operation.  A message whose handler throws leaves every store as
it was (the exception fires before any store call). -/
def applyOp (st : ClientState) (op : Operation) : ClientState :=
  match op with
  | Operation.inbound ev =>
      match dispatchMessage st ev with
      | Except.ok st' => st'
      | Except.error _ => st
  | Operation.removeSuggestionOp id =>
      { st with aiStore := st.aiStore.removeSuggestion id }
  | Operation.approveSuggestionOp id outcome returned =>
      { st with aiStore := approveSuggestionApply st.aiStore id outcome returned }
  | Operation.rejectSuggestionOp id outcome returned =>
      { st with aiStore := rejectSuggestionApply st.aiStore id outcome returned }
  | Operation.overrideOp id outcome returned =>
      overrideApply st id outcome returned
  | Operation.setRobotTierOp id tier outcome =>
      setRobotTierApply st id tier outcome
  | Operation.setFleetDefaultOp tier outcome =>
      { st with autonomyStore := setFleetDefaultApply st.autonomyStore tier outcome }

/-- The initial store contents (the literals in each `create` call). -/
def initialClientState : ClientState :=
  { robotStore := { robots := fun _ => none, trails := fun _ => none },
    missionStore := { missions := fun _ => none, activeMissionId := none },
    commandStore := { commands := fun _ => none, robotCommands := fun _ => [] },
    aiStore := { suggestions := fun _ => none },
    autonomyStore := { fleetDefaultTier := AutonomyTier.assisted,
                       countdowns := fun _ => none, changeLog := [] } }

/-- A store state is reachable when some operation sequence produces it from
the initial state. -/
def Reachable (st : ClientState) : Prop :=
  ∃ ops : List Operation, st = ops.foldl applyOp initialClientState

-- ---------------------------------------------------------------------------
-- Command builder UI (App.tsx: CommandPalette, MapView, WaypointToolbar;
-- part_000 alternative console: WaypointEditor)
-- ---------------------------------------------------------------------------

/-- App.tsx `MAP_MODES`: command strings that toggle a map-interaction mode. -/
def MAP_MODES : List String := ["goto", "set_home", "set_waypoints", "circle_area"]

/-- The `CommandMode` a command string from `MAP_MODES` is cast to. -/
def modeOfCommand (command : String) : CommandMode :=
  if command = "goto" then CommandMode.goto
  else if command = "set_home" then CommandMode.set_home
  else if command = "set_waypoints" then CommandMode.set_waypoints
  else if command = "circle_area" then CommandMode.circle_area
  else CommandMode.noMode

/-- App.tsx `CommandPalette.handleCommand`: a map-mode command toggles the
mode (re-activating the current mode returns to none) and emits nothing; any
other command is sent immediately with the default empty parameter bag. -/
def handleCommandPalette (sendFnInstalled : Bool) (ui : UIStore) (robotId : String)
    (command : String) : UIStore × List OutboundCommand :=
  if MAP_MODES.contains command then
    (ui.setCommandMode
       (if ui.commandMode = modeOfCommand command then CommandMode.noMode
        else modeOfCommand command), [])
  else
    (ui, sendCommandEmits sendFnInstalled robotId command CommandParams.empty)

/-- App.tsx `MapView.handleClick`: nothing without a selected robot; in
goto/set_home the click sends one command and exits the mode; in
set_waypoints it appends the click to the draft; in circle_area the first
click fixes the center. -/
def handleMapClick (sendFnInstalled : Bool) (ui : UIStore) (lat lng : Int) :
    UIStore × List OutboundCommand :=
  match ui.selectedRobotId with
  | none => (ui, [])
  | some rid =>
      match ui.commandMode with
      | CommandMode.goto =>
          (ui.setCommandMode CommandMode.noMode,
           sendCommandEmits sendFnInstalled rid "goto" (CommandParams.point lat lng))
      | CommandMode.set_home =>
          (ui.setCommandMode CommandMode.noMode,
           sendCommandEmits sendFnInstalled rid "set_home" (CommandParams.point lat lng))
      | CommandMode.set_waypoints => (ui.addWaypoint lat lng, [])
      | CommandMode.circle_area =>
          (if ui.circleCenter = none then ui.setCircleCenter (some (lat, lng)) else ui,
           [])
      | CommandMode.noMode => (ui, [])

/-- App.tsx `WaypointToolbar.handleSend`: with a selected robot and a
non-empty draft, send one `follow_waypoints` command whose parameters carry
the draft as `{latitude, longitude}` objects in order, then clear the draft
and leave the mode. -/
def handleSend (sendFnInstalled : Bool) (ui : UIStore) :
    UIStore × List OutboundCommand :=
  match ui.selectedRobotId with
  | none => (ui, [])
  | some rid =>
      if ui.pendingWaypoints = [] then (ui, [])
      else
        let waypoints := ui.pendingWaypoints.map
          (fun wp => GeoPoint.mk wp.1 wp.2)
        ((ui.clearWaypoints).setCommandMode CommandMode.noMode,
         sendCommandEmits sendFnInstalled rid "follow_waypoints"
           (CommandParams.simpleWaypoints waypoints))

/-- part_000 `WaypointEditor.sendWaypoints` (alternative console): with a
selected robot and a non-empty draft, send one command of type
`set_waypoints` whose parameters carry the draft as full waypoint objects
(`sequence`/`action`/`status` filled in), then clear the draft and leave the
mode. -/
def sendWaypoints (sendFnInstalled : Bool) (ui : UIStore) :
    UIStore × List OutboundCommand :=
  match ui.selectedRobotId with
  | none => (ui, [])
  | some rid =>
      if ui.pendingWaypoints = [] then (ui, [])
      else
        let waypoints := ui.pendingWaypoints.enum.map
          (fun p => Waypoint.mk ("wp-" ++ toString p.1) p.1 p.2.1 p.2.2 0
            "waypoint" WaypointStatus.pending)
        ((ui.clearWaypoints).setCommandMode CommandMode.noMode,
         sendCommandEmits sendFnInstalled rid "set_waypoints"
           (CommandParams.fullWaypoints waypoints))

-- ---------------------------------------------------------------------------
-- Suggestion cards (App.tsx SuggestionCard; part_000 AlertCard)
-- ---------------------------------------------------------------------------

/-- What `SuggestionCard.renderActions` renders for a suggestion. -/
inductive SuggestionActions
  | statusLabel (s : SuggestionStatus)
  | autoExecutedBadge
  | countdownTimer
  | dismissOnly
  | dismissAndApprove
  deriving DecidableEq, Repr

/-- App.tsx `SuggestionCard.renderActions`, with the card's inputs: the
suggestion, the robots record entry for its robot (tier falls back to
`assisted` when the robot is unknown) and the countdowns record entry for
the suggestion id. -/
def renderActions (suggestion : Suggestion) (robot : Option RobotState)
    (countdown : Option CountdownSuggestion) : SuggestionActions :=
  let tier := (robot.map RobotState.autonomyTier).getD AutonomyTier.assisted
  if suggestion.status ≠ SuggestionStatus.pending then
    SuggestionActions.statusLabel suggestion.status
  else if tier = AutonomyTier.autonomous then SuggestionActions.autoExecutedBadge
  else if tier = AutonomyTier.supervised ∧ countdown.isSome then
    SuggestionActions.countdownTimer
  else if tier ≠ AutonomyTier.manual ∧ suggestion.proposedAction.isSome then
    SuggestionActions.dismissAndApprove
  else SuggestionActions.dismissOnly

/-- Whether a rendered action set includes the Approve button. -/
def offersApprove : SuggestionActions → Bool
  | SuggestionActions.dismissAndApprove => true
  | _ => false

/-- part_000 `AlertCard`: the APPROVE button is rendered exactly when the
suggestion is not done (`status === "pending"`) and carries a proposed
action.  The card reads nothing else — in particular not the robot or its
tier. -/
def alertCardOffersApprove (suggestion : Suggestion) : Bool :=
  suggestion.status = SuggestionStatus.pending ∧ suggestion.proposedAction.isSome

-- ---------------------------------------------------------------------------
-- Helper lemmas about sliceLast and trailStep
-- ---------------------------------------------------------------------------

theorem sliceLast_length {α : Type} (n : Nat) (l : List α) :
    (sliceLast n l).length = l.length - (l.length - n) := by
  simp [sliceLast]

theorem sliceLast_of_length_le {α : Type} (n : Nat) (l : List α)
    (h : l.length ≤ n) : sliceLast n l = l := by
  simp [sliceLast, Nat.sub_eq_zero_of_le h]

theorem sliceLast_getLast? {α : Type} (n : Nat) (hn : 1 ≤ n) (l : List α)
    (hl : l ≠ []) : (sliceLast n l).getLast? = l.getLast? := by
  rw [List.getLast?_eq_getElem?, List.getLast?_eq_getElem?, sliceLast,
    List.getElem?_drop]
  have hlen : 1 ≤ l.length := List.length_pos.mpr hl
  congr 1
  rw [List.length_drop]
  omega

theorem sliceLast_sliceLast {α : Type} (m n : Nat) (h : m ≤ n) (l : List α) :
    sliceLast m (sliceLast n l) = sliceLast m l := by
  unfold sliceLast
  rw [List.drop_drop]
  congr 1
  rw [List.length_drop]
  omega

theorem sliceLast_append_one {α : Type} (n : Nat) (hn : 1 ≤ n) (l : List α)
    (a : α) : sliceLast n (l ++ [a]) = sliceLast (n - 1) l ++ [a] := by
  unfold sliceLast
  rw [List.length_append]
  have hle : l.length + [a].length - n ≤ l.length := by simp; omega
  rw [List.drop_append_of_le_length hle]
  congr 2
  simp
  omega

theorem trailStep_getLast? (prev : List (Int × Int)) (lng lat : Int) :
    (trailStep prev lng lat).getLast? = some (lng, lat) := by
  unfold trailStep
  by_cases h : prev.getLast? = some (lng, lat)
  · simp [h]
  · simp [h]

theorem trailStep_idem (prev : List (Int × Int)) (lng lat : Int) :
    trailStep (trailStep prev lng lat) lng lat = trailStep prev lng lat := by
  rw [show trailStep (trailStep prev lng lat) lng lat =
      if (trailStep prev lng lat).getLast? = some (lng, lat) then trailStep prev lng lat
      else sliceLast (MAX_TRAIL_POINTS - 1) (trailStep prev lng lat) ++ [(lng, lat)]
    from rfl]
  rw [if_pos (trailStep_getLast? prev lng lat)]

theorem trailStep_length_le (prev : List (Int × Int)) (lng lat : Int)
    (h : prev.length ≤ MAX_TRAIL_POINTS) :
    (trailStep prev lng lat).length ≤ MAX_TRAIL_POINTS := by
  unfold trailStep
  by_cases hc : prev.getLast? = some (lng, lat)
  · simpa [hc] using h
  · simp only [hc, if_false, List.length_append, sliceLast_length,
      List.length_singleton]
    unfold MAX_TRAIL_POINTS
    omega

-- ---------------------------------------------------------------------------
-- Trail evolution under sequences of single-robot updates
-- ---------------------------------------------------------------------------

/-- Folding the trail computation over a list of `(lng, lat)` samples. -/
def trailFoldFrom (init : List (Int × Int)) (ps : List (Int × Int)) :
    List (Int × Int) :=
  ps.foldl (fun t p => trailStep t p.1 p.2) init

/-- The `(longitude, latitude)` samples carried by the updates in `rs` that
target robot `r` (updates without a position carry no sample). -/
def positionsFor (r : String) (rs : List RobotState) : List (Int × Int) :=
  (rs.filter (fun rb => rb.id = r)).filterMap
    (fun rb => rb.position.map (fun p => (p.longitude, p.latitude)))

/-- Dispatching a sequence of inbound `robot.updated` messages in order. -/
def dispatchUpdates (st : ClientState) (rs : List RobotState) : ClientState :=
  rs.foldl (fun s rb => applyOp s (Operation.inbound (InboundEvent.robotUpdated rb))) st

theorem trailFoldFrom_nil (init : List (Int × Int)) : trailFoldFrom init [] = init := rfl

theorem trailFoldFrom_cons (init : List (Int × Int)) (p : Int × Int)
    (ps : List (Int × Int)) :
    trailFoldFrom init (p :: ps) = trailFoldFrom (trailStep init p.1 p.2) ps := rfl

theorem trailFoldFrom_length_le (ps : List (Int × Int)) :
    ∀ init : List (Int × Int), init.length ≤ MAX_TRAIL_POINTS →
    (trailFoldFrom init ps).length ≤ MAX_TRAIL_POINTS := by
  induction ps with
  | nil => intro init h; simpa [trailFoldFrom_nil] using h
  | cons p ps ih =>
      intro init h
      rw [trailFoldFrom_cons]
      exact ih _ (trailStep_length_le init p.1 p.2 h)

/-- A single robot update only rewrites the updated robot's entries. -/
theorem updateRobot_trails_other (st : RobotStore) (id r : String)
    (robot : RobotState) (h : ¬r = id) :
    (st.updateRobot id robot).trails r = st.trails r := by
  simp [RobotStore.updateRobot, setKey, h]

theorem updateRobot_trails_self (st : RobotStore) (id : String) (robot : RobotState) :
    (st.updateRobot id robot).trails id =
      some (match robot.position with
            | none => (st.trails id).getD []
            | some pos => trailStep ((st.trails id).getD []) pos.longitude pos.latitude) := by
  simp [RobotStore.updateRobot, setKey]

/-- Dispatching `robot.updated` messages evolves each robot's trail by the
trail fold over exactly the samples addressed to it. -/
theorem dispatchUpdates_trail (rs : List RobotState) :
    ∀ (st : ClientState) (r : String),
    ((dispatchUpdates st rs).robotStore.trails r).getD [] =
      trailFoldFrom ((st.robotStore.trails r).getD []) (positionsFor r rs) := by
  induction rs with
  | nil => intro st r; rfl
  | cons rb rs ih =>
      intro st r
      have hstep : dispatchUpdates st (rb :: rs) =
          dispatchUpdates { st with robotStore := st.robotStore.updateRobot rb.id rb } rs := rfl
      rw [hstep, ih]
      by_cases hid : rb.id = r
      · subst hid
        rw [updateRobot_trails_self]
        cases hpos : rb.position with
        | none =>
            simp only [positionsFor, List.filter_cons]
            simp only [decide_eq_true_eq, if_pos rfl]
            simp [List.filterMap_cons, hpos, positionsFor, Option.getD]
        | some pos =>
            simp only [positionsFor, List.filter_cons]
            simp only [decide_eq_true_eq, if_pos rfl]
            simp [List.filterMap_cons, hpos, positionsFor, Option.getD,
              trailFoldFrom_cons]
      · rw [updateRobot_trails_other _ _ _ _ (fun hr => hid hr.symm)]
        have hfilter : positionsFor r (rb :: rs) = positionsFor r rs := by
          simp [positionsFor, List.filter_cons, hid]
        rw [hfilter]

/-- With pairwise-adjacent-distinct samples, the trail fold from empty keeps
exactly the most recent `MAX_TRAIL_POINTS` samples in order. -/
theorem trailFoldFrom_eq_sliceLast (ps : List (Int × Int))
    (h : List.Chain' (fun a b => a ≠ b) ps) :
    trailFoldFrom [] ps = sliceLast MAX_TRAIL_POINTS ps := by
  induction ps using List.reverseRecOn with
  | nil => rfl
  | append_singleton l a ih =>
      rw [List.chain'_append] at h
      obtain ⟨hl, -, hlast⟩ := h
      have hfold : trailFoldFrom [] (l ++ [a]) =
          trailStep (trailFoldFrom [] l) a.1 a.2 := by
        unfold trailFoldFrom
        rw [List.foldl_append]
        rfl
      rw [hfold, ih hl]
      by_cases hnil : l = []
      · subst hnil
        simp [trailStep, sliceLast, MAX_TRAIL_POINTS]
      · have hsixty : (1 : Nat) ≤ MAX_TRAIL_POINTS := by norm_num [MAX_TRAIL_POINTS]
        have hglast : (sliceLast MAX_TRAIL_POINTS l).getLast? = l.getLast? :=
          sliceLast_getLast? _ hsixty l hnil
        have hz : l.getLast? = some (l.getLast hnil) :=
          List.getLast?_eq_getLast_of_ne_nil hnil
        have hne : (sliceLast MAX_TRAIL_POINTS l).getLast? ≠ some (a.1, a.2) := by
          rw [hglast, hz]
          intro hcontra
          have hza : l.getLast hnil = (a.1, a.2) := Option.some.inj hcontra
          exact hlast _ (Option.mem_def.mpr hz) a rfl (hza.trans Prod.mk.eta)
        rw [trailStep, if_neg hne,
          sliceLast_sliceLast _ _ (by norm_num [MAX_TRAIL_POINTS]) l,
          ← sliceLast_append_one MAX_TRAIL_POINTS hsixty l (a.1, a.2)]

-- ---------------------------------------------------------------------------
-- Concrete fixtures used by witnesses and counterexamples
-- ---------------------------------------------------------------------------

/-- A generic healthy robot record. -/
def demoHealth : RobotHealth := { batteryPercent := 80, signalStrength := 90 }

/-- A robot record with the given id, tier and position. -/
def demoRobot (id : String) (tier : AutonomyTier) (pos : Option RobotPosition) :
    RobotState :=
  { id := id, name := id, robotType := RobotType.drone,
    status := RobotStatus.active, position := pos, speed := 0,
    health := demoHealth, lastSeen := 0, autonomyTier := tier,
    lastCommandSource := "operator", lastCommandAt := 0 }

def robotR1 : RobotState :=
  demoRobot "r1" AutonomyTier.assisted (some { latitude := 1, longitude := 2, altitude := 0, heading := 0 })

def robotR2 : RobotState :=
  demoRobot "r2" AutonomyTier.assisted (some { latitude := 3, longitude := 4, altitude := 0, heading := 0 })

def missionM1 : Mission :=
  { id := "m1", name := "M1", status := MissionStatus.active,
    assignedRobots := ["r2"], waypoints := fun _ => none,
    createdAt := 0, updatedAt := 0 }

/-- A client state holding robot `r1` (and its one-point trail). -/
def c4Prior : ClientState :=
  applyOp initialClientState (Operation.inbound (InboundEvent.robotUpdated robotR1))

/-- A snapshot that carries only robot `r2` and one mission. -/
def c4Payload : StateSyncPayload :=
  { robots := setKey (fun _ => none) "r2" (some robotR2),
    missions := some (setKey (fun _ => none) "m1" (some missionM1)) }

def c4After : ClientState :=
  applyOp c4Prior (Operation.inbound (InboundEvent.stateSync c4Payload))

-- ---------------------------------------------------------------------------
-- C3 — the dispatcher throws on malformed input (code bug)
-- ---------------------------------------------------------------------------

/-- C3: the claim says the message dispatcher never throws and drops malformed
messages.  The code contradicts it: `ws.onmessage` begins with
`JSON.parse(event.data)` outside any try/catch, so invalid JSON raises a
SyntaxError out of the handler, and a `robot.updated` envelope whose payload
is null raises a TypeError at `robot.id`.  This theorem evaluates the
dispatcher at those failing inputs. -/
theorem dispatcher_throws_on_malformed (st : ClientState) :
    dispatchMessage st InboundEvent.invalidJson
        = Except.error DispatchError.jsonSyntaxError ∧
      dispatchMessage st InboundEvent.robotUpdatedNullPayload
        = Except.error DispatchError.typeError :=
  ⟨rfl, rfl⟩

-- ---------------------------------------------------------------------------
-- C4 — full-state snapshot replaces robot and mission maps wholesale
-- ---------------------------------------------------------------------------

/-- C4: after dispatching a full-state snapshot, the robot map is exactly the
snapshot's robot map (no merge with the old entries), and when the snapshot
carries a mission map the mission map is likewise replaced wholesale. -/
theorem stateSync_replaces_robot_and_mission_maps
    (st st' : ClientState) (p : StateSyncPayload)
    (h : dispatchMessage st (InboundEvent.stateSync p) = Except.ok st') :
    st'.robotStore.robots = p.robots ∧
      ∀ m, p.missions = some m → st'.missionStore.missions = m := by
  simp only [dispatchMessage] at h
  injection h with h
  subst h
  refine ⟨rfl, ?_⟩
  intro m hm
  simp only [hm]
  rfl

/-- Witness for C4: a concrete snapshot carrying only `r2` wipes the prior
`r1` entry and installs the mission map. -/
theorem stateSync_replaces_witness :
    c4After.robotStore.robots "r1" = none ∧
      c4After.robotStore.robots "r2" = some robotR2 ∧
      c4After.missionStore.missions "m1" = some missionM1 := by
  have h := stateSync_replaces_robot_and_mission_maps c4Prior c4After c4Payload rfl
  refine ⟨?_, ?_, ?_⟩
  · rw [h.1]; decide
  · rw [h.1]; decide
  · rw [h.2 (setKey (fun _ => none) "m1" (some missionM1)) rfl]
    simp [setKey]

-- ---------------------------------------------------------------------------
-- C10 — full-state snapshot leaves the trails map untouched
-- ---------------------------------------------------------------------------

/-- C10: dispatching a full-state snapshot leaves the entire trails record
exactly as it was, including trails of robots absent from the snapshot. -/
theorem stateSync_preserves_trails
    (st st' : ClientState) (p : StateSyncPayload)
    (h : dispatchMessage st (InboundEvent.stateSync p) = Except.ok st') :
    st'.robotStore.trails = st.robotStore.trails := by
  simp only [dispatchMessage] at h
  injection h with h
  subst h
  rfl

/-- Witness for C10: robot `r1` is absent from the snapshot, yet its recorded
trail survives the snapshot unchanged. -/
theorem stateSync_preserves_trails_witness :
    c4Prior.robotStore.trails "r1" = some [(2, 1)] ∧
      c4After.robotStore.trails "r1" = some [(2, 1)] := by
  have h := stateSync_preserves_trails c4Prior c4After c4Payload rfl
  constructor
  · decide
  · rw [show c4After.robotStore.trails = c4Prior.robotStore.trails from h]
    decide

-- ---------------------------------------------------------------------------
-- C5 — tier-change rollback happens only on a thrown fetch
-- ---------------------------------------------------------------------------

def robotR5 : RobotState :=
  demoRobot "r5" AutonomyTier.manual (some { latitude := 1, longitude := 2, altitude := 0, heading := 0 })

/-- A client state holding robot `r5` at the manual tier. -/
def c5State : ClientState :=
  applyOp initialClientState (Operation.inbound (InboundEvent.robotUpdated robotR5))

/-- Counterexample for C5: the confirming call fails with a non-success HTTP
response (a resolved fetch with `resp.ok` false, which throws nothing), and
the robot keeps the optimistically written tier instead of reverting to its
pre-call value `manual`. -/
theorem setRobotTier_keeps_tier_on_error_response :
    c5State.robotStore.robots "r5" = some robotR5 ∧
      robotR5.autonomyTier = AutonomyTier.manual ∧
      ((applyOp c5State (Operation.setRobotTierOp "r5" AutonomyTier.supervised
          FetchOutcome.errorResponse)).robotStore.robots "r5").map
          RobotState.autonomyTier = some AutonomyTier.supervised := by
  refine ⟨by decide, by decide, by decide⟩

/-- C5 as amended: `setRobotTier`'s catch block fires only when the fetch
itself rejects (network error); in that case the captured pre-call robot
record — tier included — is written back, so the robot's entry after the
operation equals its entry before it.  A resolved non-success response is
never inspected and performs no rollback. -/
theorem setRobotTier_networkError_restores_robot (st : ClientState)
    (id : String) (tier : AutonomyTier) :
    (applyOp st (Operation.setRobotTierOp id tier FetchOutcome.networkError)).robotStore.robots id
      = st.robotStore.robots id := by
  unfold applyOp setRobotTierApply
  cases h : st.robotStore.robots id with
  | none => simp [h]
  | some robot => simp [h, RobotStore.updateRobot, setKey]

-- ---------------------------------------------------------------------------
-- C2 — command status is not monotonic: the last update wins
-- ---------------------------------------------------------------------------

/-- The canonical lifecycle ordering named by the claim
(pending < sent < acknowledged < completed/failed); used only to state the
monotonicity property, not by the embedded code. -/
def canonicalStage : CommandStatus → Nat
  | CommandStatus.pending => 0
  | CommandStatus.sent => 1
  | CommandStatus.acknowledged => 2
  | CommandStatus.completed => 3
  | CommandStatus.failed => 3

/-- A command record that has already completed. -/
def cmdCompleted : Command :=
  { id := "c1", robotId := "r1", commandType := "goto",
    source := CommandSource.operator, status := CommandStatus.completed,
    createdAt := 0, updatedAt := 0 }

/-- A later status message for the same id carrying `pending`. -/
def cmdPendingMsg : Command :=
  { id := "c1", robotId := "r1", commandType := "goto",
    source := CommandSource.operator, status := CommandStatus.pending,
    createdAt := 0, updatedAt := 1 }

/-- The store after the command completed. -/
def c2State1 : ClientState :=
  applyOp initialClientState (Operation.inbound (InboundEvent.commandStatus cmdCompleted))

/-- …and after the subsequent `pending` status message. -/
def c2State2 : ClientState :=
  applyOp c2State1 (Operation.inbound (InboundEvent.commandStatus cmdPendingMsg))

/-- Counterexample for C2: a command whose status is `completed` reverts to
`pending` after one inbound command-status message — a move to a strictly
earlier stage of the canonical ordering. -/
theorem command_status_regresses :
    (c2State1.commandStore.commands "c1").map Command.status
        = some CommandStatus.completed ∧
      (c2State2.commandStore.commands "c1").map Command.status
        = some CommandStatus.pending ∧
      canonicalStage CommandStatus.pending < canonicalStage CommandStatus.completed := by
  refine ⟨by decide, by decide, by decide⟩

/-- C2 as amended: `updateCommand` merges the inbound record's fields
verbatim, so after a command-status message for a known id the stored status
equals the message's status whatever stage the record previously held; the
canonical ordering is not enforced and regressions (completed back to
pending) are applied. -/
theorem command_status_last_write_wins (st : ClientState) (c old : Command)
    (h : st.commandStore.commands c.id = some old) :
    ((applyOp st (Operation.inbound (InboundEvent.commandStatus c))).commandStore.commands c.id).map
        Command.status = some c.status := by
  simp only [applyOp, dispatchMessage, h, CommandStore.updateCommand,
    mergeCommand, fullPatch, setKey]
  simp

/-- Witness for C2's amended theorem at the concrete regression pair. -/
theorem command_status_last_write_wins_witness :
    c2State1.commandStore.commands cmdPendingMsg.id = some cmdCompleted ∧
      ((applyOp c2State1 (Operation.inbound
          (InboundEvent.commandStatus cmdPendingMsg))).commandStore.commands
          cmdPendingMsg.id).map Command.status = some cmdPendingMsg.status :=
  ⟨by decide, command_status_last_write_wins c2State1 cmdPendingMsg cmdCompleted (by decide)⟩

-- ---------------------------------------------------------------------------
-- C9 — approve at the manual tier: main console vs alternative console
-- ---------------------------------------------------------------------------

def robotR9 : RobotState := demoRobot "r9" AutonomyTier.manual none

/-- A pending suggestion for `r9` that carries a proposed action. -/
def sugg9 : Suggestion :=
  { id := "s9", robotId := "r9", title := "Low battery", description := "D",
    reasoning := "R", severity := SuggestionSeverity.warning,
    proposedAction := some { commandType := "return_home", robotId := "r9" },
    confidence := 1, status := SuggestionStatus.pending,
    source := SuggestionSource.ai, createdAt := 0, expiresAt := 0 }

/-- Counterexample for C9: the alternative console's AlertCard never reads
the robot's tier, so a pending suggestion with a proposed action whose owning
robot sits at the manual tier still gets an APPROVE button. -/
theorem alertCard_offers_approve_at_manual :
    robotR9.autonomyTier = AutonomyTier.manual ∧
      sugg9.robotId = robotR9.id ∧
      sugg9.status = SuggestionStatus.pending ∧
      alertCardOffersApprove sugg9 = true := by
  refine ⟨by decide, by decide, by decide, by decide⟩

/-- C9 as amended: in the main console's SuggestionCard, no approve action is
offered for a suggestion whose robot is at the manual tier, with or without a
proposed action; the alternative console's AlertCard does not consult the
tier and offers approve for any pending suggestion with a proposed action. -/
theorem suggestionCard_no_approve_at_manual (s : Suggestion)
    (robot : RobotState) (countdown : Option CountdownSuggestion)
    (h : robot.autonomyTier = AutonomyTier.manual) :
    offersApprove (renderActions s (some robot) countdown) = false := by
  unfold renderActions
  simp only [Option.map_some', Option.getD_some, h]
  by_cases hs : s.status = SuggestionStatus.pending
  · simp [hs, offersApprove]
  · simp [hs, offersApprove]

/-- Witness for C9's amended theorem at the concrete manual-tier pair. -/
theorem suggestionCard_no_approve_witness :
    robotR9.autonomyTier = AutonomyTier.manual ∧
      sugg9.status = SuggestionStatus.pending ∧
      sugg9.proposedAction.isSome = true ∧
      offersApprove (renderActions sugg9 (some robotR9) none) = false :=
  ⟨by decide, by decide, by decide,
    suggestionCard_no_approve_at_manual sugg9 robotR9 none (by decide)⟩

-- ---------------------------------------------------------------------------
-- C8 — the waypoint builder scenario
-- ---------------------------------------------------------------------------

/-- Folding a list of map clicks through `MapView.handleClick`. -/
def foldClicks (b : Bool) (ui : UIStore) (ps : List (Int × Int)) : UIStore :=
  ps.foldl (fun u p => (handleMapClick b u p.1 p.2).1) ui

theorem handleMapClick_set_waypoints (b : Bool) (u : UIStore) (rid : String)
    (lat lng : Int) (hsel : u.selectedRobotId = some rid)
    (hmode : u.commandMode = CommandMode.set_waypoints) :
    handleMapClick b u lat lng = (u.addWaypoint lat lng, []) := by
  simp [handleMapClick, hsel, hmode]

theorem foldClicks_appends (b : Bool) (ps : List (Int × Int)) :
    ∀ (u : UIStore) (rid : String), u.selectedRobotId = some rid →
      u.commandMode = CommandMode.set_waypoints →
      (foldClicks b u ps).selectedRobotId = some rid ∧
        (foldClicks b u ps).commandMode = CommandMode.set_waypoints ∧
        (foldClicks b u ps).pendingWaypoints = u.pendingWaypoints ++ ps := by
  induction ps with
  | nil =>
      intro u rid h1 h2
      exact ⟨h1, h2, by simp [foldClicks]⟩
  | cons p ps ih =>
      intro u rid h1 h2
      have hstep := handleMapClick_set_waypoints b u rid p.1 p.2 h1 h2
      have hfold : foldClicks b u (p :: ps) = foldClicks b (u.addWaypoint p.1 p.2) ps := by
        unfold foldClicks
        rw [List.foldl_cons, hstep]
      rw [hfold]
      obtain ⟨ha, hb, hc⟩ := ih (u.addWaypoint p.1 p.2) rid h1 h2
      refine ⟨ha, hb, ?_⟩
      rw [hc]
      simp [UIStore.addWaypoint]

/-- C8 as amended, main-console path: from mode none with a selected robot,
activating the Waypoints command enters set-waypoints mode without emitting;
each map click appends one point to the draft in order; undo removes exactly
the last point; the toolbar's send emits exactly one outbound command of type
`follow_waypoints` listing the draft's points in order, after which the draft
is empty and the mode is none.  (The alternative console's send emits type
`set_waypoints` instead — see the counterexample.) -/
theorem waypoint_builder_scenario (ui : UIStore) (rid : String)
    (ps : List (Int × Int))
    (hsel : ui.selectedRobotId = some rid)
    (hmode : ui.commandMode = CommandMode.noMode)
    (hdraft : ui.pendingWaypoints = [])
    (hne : ps.dropLast ≠ []) :
    (handleCommandPalette true ui rid "set_waypoints").2 = [] ∧
      (handleCommandPalette true ui rid "set_waypoints").1.commandMode
        = CommandMode.set_waypoints ∧
      (foldClicks true (handleCommandPalette true ui rid "set_waypoints").1 ps).pendingWaypoints
        = ps ∧
      (foldClicks true (handleCommandPalette true ui rid "set_waypoints").1 ps).undoWaypoint.pendingWaypoints
        = ps.dropLast ∧
      (handleSend true (foldClicks true (handleCommandPalette true ui rid "set_waypoints").1 ps).undoWaypoint).2
        = [{ robotId := rid, commandType := "follow_waypoints",
             parameters := CommandParams.simpleWaypoints
               (ps.dropLast.map (fun wp => GeoPoint.mk wp.1 wp.2)) }] ∧
      (handleSend true (foldClicks true (handleCommandPalette true ui rid "set_waypoints").1 ps).undoWaypoint).1.pendingWaypoints
        = [] ∧
      (handleSend true (foldClicks true (handleCommandPalette true ui rid "set_waypoints").1 ps).undoWaypoint).1.commandMode
        = CommandMode.noMode := by
  have hact : handleCommandPalette true ui rid "set_waypoints" =
      (ui.setCommandMode CommandMode.set_waypoints, []) := by
    simp [handleCommandPalette, MAP_MODES, modeOfCommand, hmode]
  have hact1 : (handleCommandPalette true ui rid "set_waypoints").1 =
      ui.setCommandMode CommandMode.set_waypoints := by rw [hact]
  have hsel1 : (ui.setCommandMode CommandMode.set_waypoints).selectedRobotId = some rid := by
    simpa [UIStore.setCommandMode] using hsel
  have hmode1 : (ui.setCommandMode CommandMode.set_waypoints).commandMode
      = CommandMode.set_waypoints := by
    simp [UIStore.setCommandMode]
  have hdraft1 : (ui.setCommandMode CommandMode.set_waypoints).pendingWaypoints = [] := by
    simpa [UIStore.setCommandMode] using hdraft
  obtain ⟨hfsel, hfmode, hfdraft⟩ :=
    foldClicks_appends true ps (ui.setCommandMode CommandMode.set_waypoints) rid hsel1 hmode1
  rw [hdraft1, List.nil_append] at hfdraft
  have husel : (foldClicks true (ui.setCommandMode CommandMode.set_waypoints) ps).undoWaypoint.selectedRobotId
      = some rid := hfsel
  have hudraft : (foldClicks true (ui.setCommandMode CommandMode.set_waypoints) ps).undoWaypoint.pendingWaypoints
      = ps.dropLast := by
    simp [UIStore.undoWaypoint, hfdraft]
  have hsend : handleSend true (foldClicks true (ui.setCommandMode CommandMode.set_waypoints) ps).undoWaypoint
      = (((foldClicks true (ui.setCommandMode CommandMode.set_waypoints) ps).undoWaypoint.clearWaypoints).setCommandMode
           CommandMode.noMode,
         [{ robotId := rid, commandType := "follow_waypoints",
            parameters := CommandParams.simpleWaypoints
              (ps.dropLast.map (fun wp => GeoPoint.mk wp.1 wp.2)) }]) := by
    unfold handleSend
    rw [husel]
    simp only [hudraft, hne, if_false, sendCommandEmits, if_true]
  refine ⟨by rw [hact], by rw [hact1]; exact hmode1, by rw [hact1]; exact hfdraft,
    by rw [hact1]; exact hudraft, by rw [hact1, hsend], ?_, ?_⟩
  · rw [hact1, hsend]
    simp [UIStore.clearWaypoints, UIStore.setCommandMode]
  · rw [hact1, hsend]
    simp [UIStore.clearWaypoints, UIStore.setCommandMode]

/-- The draft state right before the scenario's send: robot selected,
set-waypoints mode, two points drafted. -/
def c8UI : UIStore :=
  { selectedRobotId := some "r8", commandMode := CommandMode.set_waypoints,
    pendingWaypoints := [(1, 1), (2, 2)], circleCenter := none,
    circleRadius := 150 }

/-- Counterexample for C8: the alternative console's `WaypointEditor`'s send
action emits one command whose type is `set_waypoints`, not
`follow_waypoints` as the claim states. -/
theorem sendWaypoints_emits_set_waypoints_type :
    (sendWaypoints true c8UI).2.map OutboundCommand.commandType = ["set_waypoints"] ∧
      ("set_waypoints" : String) ≠ "follow_waypoints" := by
  refine ⟨by decide, by decide⟩

/-- Witness for C8's amended theorem at the spec's concrete scenario:
clicks (1,1),(2,2),(3,3), one undo, then send. -/
theorem waypoint_builder_scenario_witness :
    ([(1, 1), (2, 2), (3, 3)] : List (Int × Int)).dropLast ≠ [] ∧
      (handleSend true (foldClicks true
          (handleCommandPalette true
            { selectedRobotId := some "r8", commandMode := CommandMode.noMode,
              pendingWaypoints := [], circleCenter := none, circleRadius := 150 }
            "r8" "set_waypoints").1
          [(1, 1), (2, 2), (3, 3)]).undoWaypoint).2
        = [{ robotId := "r8", commandType := "follow_waypoints",
             parameters := CommandParams.simpleWaypoints
               [GeoPoint.mk 1 1, GeoPoint.mk 2 2] }] := by
  constructor
  · decide
  · have h := waypoint_builder_scenario
      { selectedRobotId := some "r8", commandMode := CommandMode.noMode,
        pendingWaypoints := [], circleCenter := none, circleRadius := 150 }
      "r8" [(1, 1), (2, 2), (3, 3)] rfl rfl rfl (by decide)
    exact h.2.2.2.2.1

-- ---------------------------------------------------------------------------
-- C1 — the countdown invariant does not hold; what actually holds
-- ---------------------------------------------------------------------------

/-- A countdown announcement for suggestion `s1`. -/
def cd1 : CountdownSuggestion :=
  { suggestionId := "s1", robotId := "r1", commandType := "goto",
    autoExecuteAt := 100 }

/-- Reached by dispatching a single `autonomy.countdown` message into the
initial state: a countdown exists for a suggestion the store has never seen. -/
def c1StateA : ClientState :=
  applyOp initialClientState (Operation.inbound (InboundEvent.autonomyCountdown cd1))

def robotSup : RobotState :=
  demoRobot "r1" AutonomyTier.supervised
    (some { latitude := 1, longitude := 2, altitude := 0, heading := 0 })

/-- A pending suggestion for `r1` matching `cd1`. -/
def sugg1 : Suggestion :=
  { id := "s1", robotId := "r1", title := "T", description := "D",
    reasoning := "R", severity := SuggestionSeverity.info,
    proposedAction := some { commandType := "goto", robotId := "r1" },
    confidence := 1, status := SuggestionStatus.pending,
    source := SuggestionSource.ai, createdAt := 0, expiresAt := 200 }

/-- Supervised robot, pending suggestion, countdown — then the suggestion is
removed from the store. -/
def c1OpsB : List Operation :=
  [Operation.inbound (InboundEvent.robotUpdated robotSup),
   Operation.inbound (InboundEvent.aiSuggestion sugg1),
   Operation.inbound (InboundEvent.autonomyCountdown cd1),
   Operation.removeSuggestionOp "s1"]

def c1StateB : ClientState := c1OpsB.foldl applyOp initialClientState

/-- Counterexample for C1, in two reachable states: (a) a countdown exists for
a suggestion id that is not present at all (the `autonomy.countdown` handler
checks nothing), and (b) after `removeSuggestion` deletes a pending
suggestion, its countdown entry is still there. -/
theorem countdown_invariant_fails :
    Reachable c1StateA ∧
      (c1StateA.autonomyStore.countdowns "s1").isSome = true ∧
      c1StateA.aiStore.suggestions "s1" = none ∧
      Reachable c1StateB ∧
      (c1StateB.autonomyStore.countdowns "s1").isSome = true ∧
      c1StateB.aiStore.suggestions "s1" = none := by
  refine ⟨⟨[Operation.inbound (InboundEvent.autonomyCountdown cd1)], rfl⟩,
    by decide, by decide, ⟨c1OpsB, rfl⟩, by decide, by decide⟩

/-- C1 as amended: countdown entries mirror inbound `autonomy.countdown`
messages without any check of the suggestion's presence/status or the robot's
tier, and of the removing operations only the operator override cancels a
countdown: the override removes its suggestion's countdown entry, while
removing a suggestion, rejecting it via dismiss, and dispatching an
autonomy-tier-change message all leave the countdown set exactly as it was. -/
theorem countdown_lifecycle_actual (st : ClientState) (id : String)
    (outcome : FetchOutcome) (returned : Suggestion) (e : AutonomyChangeEntry)
    (c : CountdownSuggestion) :
    ((applyOp st (Operation.inbound (InboundEvent.autonomyCountdown c))).autonomyStore.countdowns
        c.suggestionId = some c) ∧
      ((applyOp st (Operation.overrideOp id outcome returned)).autonomyStore.countdowns id
        = none) ∧
      ((applyOp st (Operation.removeSuggestionOp id)).autonomyStore.countdowns
        = st.autonomyStore.countdowns) ∧
      ((applyOp st (Operation.rejectSuggestionOp id outcome returned)).autonomyStore.countdowns
        = st.autonomyStore.countdowns) ∧
      ((applyOp st (Operation.inbound (InboundEvent.autonomyChanged e))).autonomyStore.countdowns
        = st.autonomyStore.countdowns) := by
  refine ⟨?_, ?_, rfl, rfl, ?_⟩
  · simp [applyOp, dispatchMessage, AutonomyStore.addCountdown, setKey]
  · simp [applyOp, overrideApply, AutonomyStore.removeCountdown, setKey]
  · simp only [applyOp, dispatchMessage]
    by_cases hf : e.robotId = "__fleet__"
    · simp [hf, AutonomyStore.addChangeLogEntry, AutonomyStore.setFleetDefaultTier]
    · simp only [hf, if_false]
      cases h : st.robotStore.robots e.robotId with
      | none => simp [h, AutonomyStore.addChangeLogEntry]
      | some existing => simp [h, AutonomyStore.addChangeLogEntry]

-- ---------------------------------------------------------------------------
-- C7 — repeated identical position: idempotent, but not always one new sample
-- ---------------------------------------------------------------------------

/-- An update for `r1` at latitude 7, longitude 5. -/
def u7 : RobotState :=
  demoRobot "r1" AutonomyTier.assisted
    (some { latitude := 7, longitude := 5, altitude := 0, heading := 0 })

/-- A state whose trail for `r1` already ends in `(5, 7)`. -/
def c7Before : ClientState :=
  applyOp initialClientState (Operation.inbound (InboundEvent.robotUpdated u7))

/-- Counterexample for C7: from a trail state already ending in the update's
position, two consecutive identical updates add zero new samples, not exactly
one — the trail stays `[(5, 7)]` throughout. -/
theorem trail_repeated_position_zero_new_samples :
    c7Before.robotStore.trails "r1" = some [(5, 7)] ∧
      (applyOp (applyOp c7Before (Operation.inbound (InboundEvent.robotUpdated u7)))
          (Operation.inbound (InboundEvent.robotUpdated u7))).robotStore.trails "r1"
        = some [(5, 7)] := by
  refine ⟨by decide, by decide⟩

/-- C7 as amended: two consecutive robot updates carrying the same
(longitude, latitude) append at most one sample — exactly one (with the
oldest evicted at the cap) when the position differs from the trail's last
recorded sample — and the second identical update always leaves the trail
unchanged. -/
theorem trail_idempotent_under_repeated_position (st : ClientState)
    (u1 u2 : RobotState) (p1 p2 : RobotPosition)
    (h1 : u1.position = some p1) (h2 : u2.position = some p2)
    (hid : u2.id = u1.id)
    (hlng : p2.longitude = p1.longitude) (hlat : p2.latitude = p1.latitude) :
    ((applyOp (applyOp st (Operation.inbound (InboundEvent.robotUpdated u1)))
        (Operation.inbound (InboundEvent.robotUpdated u2))).robotStore.trails u1.id
      = (applyOp st (Operation.inbound (InboundEvent.robotUpdated u1))).robotStore.trails u1.id) ∧
      (((st.robotStore.trails u1.id).getD []).getLast?
          ≠ some (p1.longitude, p1.latitude) →
        (applyOp st (Operation.inbound (InboundEvent.robotUpdated u1))).robotStore.trails u1.id
          = some (sliceLast (MAX_TRAIL_POINTS - 1) ((st.robotStore.trails u1.id).getD [])
              ++ [(p1.longitude, p1.latitude)])) := by
  have happly : ∀ (s : ClientState) (u : RobotState),
      applyOp s (Operation.inbound (InboundEvent.robotUpdated u))
        = { s with robotStore := s.robotStore.updateRobot u.id u } := by
    intro s u; rfl
  have hself : ∀ (rs : RobotStore) (id : String) (robot : RobotState)
      (pos : RobotPosition), robot.position = some pos →
      (rs.updateRobot id robot).trails id
        = some (trailStep ((rs.trails id).getD []) pos.longitude pos.latitude) := by
    intro rs id robot pos h
    simp [RobotStore.updateRobot, setKey, h]
  simp only [happly]
  constructor
  · rw [hid]
    rw [hself _ _ _ _ h2, hself _ _ _ _ h1]
    rw [hlng, hlat, Option.getD_some, trailStep_idem]
  · intro hne
    rw [hself _ _ _ _ h1]
    rw [show trailStep ((st.robotStore.trails u1.id).getD []) p1.longitude p1.latitude
        = if ((st.robotStore.trails u1.id).getD []).getLast?
              = some (p1.longitude, p1.latitude)
          then (st.robotStore.trails u1.id).getD []
          else sliceLast (MAX_TRAIL_POINTS - 1) ((st.robotStore.trails u1.id).getD [])
              ++ [(p1.longitude, p1.latitude)] from rfl]
    rw [if_neg hne]

/-- Witness for C7's amended theorem: from the empty trail, the first update
at `(lng 5, lat 7)` records one sample and the identical second update
records none. -/
theorem trail_idempotent_witness :
    (((initialClientState.robotStore.trails "r1").getD []).getLast?
        ≠ some (5, 7)) ∧
      (applyOp initialClientState (Operation.inbound (InboundEvent.robotUpdated u7))).robotStore.trails "r1"
        = some [(5, 7)] ∧
      (applyOp (applyOp initialClientState (Operation.inbound (InboundEvent.robotUpdated u7)))
          (Operation.inbound (InboundEvent.robotUpdated u7))).robotStore.trails "r1"
        = (applyOp initialClientState (Operation.inbound (InboundEvent.robotUpdated u7))).robotStore.trails "r1" := by
  have h := trail_idempotent_under_repeated_position initialClientState u7 u7
    { latitude := 7, longitude := 5, altitude := 0, heading := 0 }
    { latitude := 7, longitude := 5, altitude := 0, heading := 0 }
    rfl rfl rfl rfl rfl
  exact ⟨by decide, h.2 (by decide), h.1⟩

-- ---------------------------------------------------------------------------
-- C6 — the trail cap and recency property
-- ---------------------------------------------------------------------------

/-- C6: over any sequence of inbound single-robot updates from the initial
state, a robot's trail never exceeds `MAX_TRAIL_POINTS` (60); and when the
samples addressed to the robot are pairwise-adjacent distinct and number at
least the cap, the final trail is exactly the most recent cap-many samples in
oldest-first order (and has exactly cap length). -/
theorem trail_cap_and_recency (rs : List RobotState) (r : String) :
    (((dispatchUpdates initialClientState rs).robotStore.trails r).getD []).length
        ≤ MAX_TRAIL_POINTS ∧
      (List.Chain' (fun a b => a ≠ b) (positionsFor r rs) →
        MAX_TRAIL_POINTS ≤ (positionsFor r rs).length →
        ((dispatchUpdates initialClientState rs).robotStore.trails r).getD []
            = sliceLast MAX_TRAIL_POINTS (positionsFor r rs) ∧
          (((dispatchUpdates initialClientState rs).robotStore.trails r).getD []).length
            = MAX_TRAIL_POINTS) := by
  have htrail := dispatchUpdates_trail rs initialClientState r
  have hbase : ((initialClientState.robotStore.trails r).getD []) = [] := rfl
  rw [hbase] at htrail
  constructor
  · rw [htrail]
    exact trailFoldFrom_length_le _ _ (by simp [MAX_TRAIL_POINTS])
  · intro hchain hlen
    have heq : ((dispatchUpdates initialClientState rs).robotStore.trails r).getD []
        = sliceLast MAX_TRAIL_POINTS (positionsFor r rs) :=
      htrail.trans (trailFoldFrom_eq_sliceLast _ hchain)
    refine ⟨heq, ?_⟩
    rw [heq, sliceLast_length]
    omega

/-- Sixty-one updates for `r6`, every position distinct from its neighbor. -/
def c6Updates : List RobotState :=
  (List.range 61).map (fun i =>
    demoRobot "r6" AutonomyTier.assisted
      (some { latitude := (i : Int), longitude := (i : Int), altitude := 0, heading := 0 }))

/-- Witness for C6 at 61 distinct positions: the trail holds exactly the most
recent 60 samples. -/
theorem trail_cap_and_recency_witness :
    List.Chain' (fun a b => a ≠ b) (positionsFor "r6" c6Updates) ∧
      MAX_TRAIL_POINTS ≤ (positionsFor "r6" c6Updates).length ∧
      (((dispatchUpdates initialClientState c6Updates).robotStore.trails "r6").getD []).length
        = MAX_TRAIL_POINTS ∧
      ((dispatchUpdates initialClientState c6Updates).robotStore.trails "r6").getD []
        = sliceLast MAX_TRAIL_POINTS (positionsFor "r6" c6Updates) := by
  have hchain : List.Chain' (fun a b => a ≠ b) (positionsFor "r6" c6Updates) := by
    rw [List.chain'_iff_get]
    decide
  have hlen : MAX_TRAIL_POINTS ≤ (positionsFor "r6" c6Updates).length := by decide
  obtain ⟨heq, hlenEq⟩ := (trail_cap_and_recency c6Updates "r6").2 hchain hlen
  exact ⟨hchain, hlen, hlenEq, heq⟩

end Argus
